import Mathlib

/-!
# Verification of the `saIDHolidayChecker` Lightning Web Component

Shallow embedding of
`force-app/main/default/lwc/saIDHolidayChecker/saIDHolidayChecker.js`.

The component is a single-instance client-side state machine.  We model its
tracked fields as a record `CompState`; each method becomes a function from a
pre-state (plus oracles for the three remote Apex calls) to a post-state,
together with the list of toast notifications it dispatches and, where
relevant, the number of remote search calls it makes.

Remote calls are modelled as oracle functions returning `Except Unit α`:
`Except.error ()` models the promise rejecting / the `await` throwing, and
`Except.ok v` models it resolving with value `v`.  The single-threaded
event-loop semantics of the component are modelled by splitting each `async`
method at its `await` points where the interleaving is observable (see
`handleSearchPre` and the comments on `handleSearch`).
-/

namespace SaIdHolidayChecker

/-- One entry of `holidayResponse.holidays` as consumed by the component:
only the `holidayDate` field is inspected (line 165 of the source); the
name field stands for the rest of the payload. -/
structure Holiday where
  holidayDate : String
  holidayName : String
deriving DecidableEq, Repr

/-- The `holidayResponse` object.  `holidays = none` models an absent
`holidays` field (as in the initial value `{}`); in JS an absent field is
falsy while any array, even empty, is truthy. -/
structure HolidayResponse where
  success : Bool
  holidays : Option (List Holiday)
deriving DecidableEq, Repr

/-- The empty object `{}` used as the initial / reset value of
`holidayResponse`: both fields read as undefined (falsy). -/
def HolidayResponse.emptyObj : HolidayResponse :=
  { success := false, holidays := none }

/-- The `idDetails` object returned by the server.  Fields the component
reads: `birthYear`, `dateOfBirth`, `gender`, `isSACitizen`,
`formattedDateOfBirth`.  `none` models an absent (undefined) field. -/
structure IdDetails where
  birthYear : Option Nat
  dateOfBirth : Option String
  gender : Option String
  isSACitizen : Bool
  formattedDateOfBirth : Option String
deriving DecidableEq, Repr

/-- The empty object `{}` used as the initial / reset value of `idDetails`. -/
def IdDetails.emptyObj : IdDetails :=
  { birthYear := none, dateOfBirth := none, gender := none,
    isSACitizen := false, formattedDateOfBirth := none }

/-- JS truthiness of an optional numeric field: `undefined` and `0` are
falsy (`!this.idDetails.birthYear`, line 173). -/
def jsTruthyNat : Option Nat → Bool
  | none => false
  | some n => n != 0

/-- JS truthiness of an optional string field: `undefined` and `""` are
falsy (`!this.idDetails.dateOfBirth`, line 155). -/
def jsTruthyStr : Option String → Bool
  | none => false
  | some s => s != ""

/-- JS `a || b` on an optional string `a` with string default `b`:
the default is used when `a` is undefined or the empty string
(`result.errorMessage || 'Invalid SA ID Number'`, line 108). -/
def jsOrStr : Option String → String → String
  | none, d => d
  | some s, d => if s = "" then d else s

/-- JS template-literal rendering of `this.idDetails.birthYear`
(line 162): an undefined field renders as the string "undefined". -/
def jsNatToString : Option Nat → String
  | none => "undefined"
  | some n => toString n

/-- A toast notification dispatched through `showToast` (lines 205-213):
title, message, variant. -/
structure Toast where
  title : String
  message : String
  variant : String
deriving DecidableEq, Repr

/-- The tracked state of the component (lines 8-26).  `validationTimeout`
is `true` exactly when a scheduled debounce callback is still pending (a
live timer handle); `clearTimeout` and the timer firing both make it
`false`.  `searchResults` is a generic object modelled as an association
list; the component only ever assigns `{}` (= `[]`) to it. -/
structure CompState where
  idNumber : String
  isValidId : Bool
  isValidating : Bool
  isSearching : Bool
  hasResults : Bool
  hasError : Bool
  errorMessage : String
  validationMessage : String
  searchResults : List (String × String)
  idDetails : IdDetails
  holidayResponse : HolidayResponse
  searchCount : Nat
  formattedIdNumber : String
  holidaysOnBirthDate : List Holiday
  validationTimeout : Bool
deriving DecidableEq, Repr

/-- The field initializers of the class (lines 8-26). -/
def CompState.initial : CompState :=
  { idNumber := "", isValidId := false, isValidating := false,
    isSearching := false, hasResults := false, hasError := false,
    errorMessage := "", validationMessage := "", searchResults := [],
    idDetails := IdDetails.emptyObj, holidayResponse := HolidayResponse.emptyObj,
    searchCount := 0, formattedIdNumber := "", holidaysOnBirthDate := [],
    validationTimeout := false }

/-- The shape of a resolved `validateAndSearch` result (line 102):
`isValid` plus the optional payload fields read in lines 104-127. -/
structure SearchResult where
  isValid : Bool
  errorMessage : Option String
  idDetails : Option IdDetails
  holidayResponse : Option HolidayResponse
  searchCount : Option Nat
  formattedIdNumber : Option String
deriving DecidableEq, Repr

/-!
## Input handling and debounced validation
-/

/-- `handleInputChange(event)` (lines 31-55).  Records the new value,
clears error and validation-message state, cancels any pending debounce
timer (lines 38-40); then either schedules a validation callback
(`length >= 10`, lines 43-47) or marks the input invalid immediately and,
for non-empty input shorter than 13, shows the too-short message
(lines 48-54). -/
def handleInputChange (s : CompState) (value : String) : CompState :=
  let s0 := { s with idNumber := value, hasError := false, errorMessage := "",
                     validationMessage := "", validationTimeout := false }
  if value != "" && 10 ≤ value.length then
    { s0 with isValidating := true, validationTimeout := true }
  else
    let s1 := { s0 with isValidId := false, isValidating := false }
    if 0 < value.length && value.length < 13 then
      { s1 with validationMessage := "ID number must be 13 digits long" }
    else s1

/-- `performRealtimeValidation()` (lines 69-86).  `validateIdFormat` is the
remote format-check oracle, applied to the component's current `idNumber`;
`Except.error ()` models the call throwing, handled by the catch block of
lines 80-85 (the error never propagates: this function is total). -/
def performRealtimeValidation (s : CompState)
    (validateIdFormat : String → Except Unit Bool) : CompState :=
  match validateIdFormat s.idNumber with
  | Except.ok isValid =>
      { s with isValidId := isValid, isValidating := false,
               validationMessage :=
                 if isValid then "Valid SA ID Number ✓"
                 else "Invalid SA ID Number format" }
  | Except.error _ =>
      { s with isValidating := false, isValidId := false,
               validationMessage := "Validation error occurred" }

/-- The debounce timer firing (the `setTimeout` callback of lines 45-47):
if a scheduled callback is pending it becomes spent and invokes
`performRealtimeValidation` on the current state; otherwise nothing
happens (the timer was cancelled or never scheduled). -/
def fireValidationTimer (s : CompState)
    (validateIdFormat : String → Except Unit Bool) : CompState :=
  if s.validationTimeout then
    performRealtimeValidation { s with validationTimeout := false } validateIdFormat
  else s

/-!
## Cross-reference computation
-/

/-- Splitting a character list at `-` separators (helper for
`parseIsoMonthDay`). -/
def splitOnDash : List Char → List (List Char)
  | [] => [[]]
  | c :: rest =>
      let r := splitOnDash rest
      if c = '-' then [] :: r
      else
        match r with
        | [] => [[c]]
        | g :: gs => (c :: g) :: gs

/-- Reading a non-empty all-digit character group as a number (helper for
`parseIsoMonthDay`). -/
def digitGroupToNat (cs : List Char) : Option Nat :=
  if !cs.isEmpty && cs.all Char.isDigit then
    some (cs.foldl (fun n c => n * 10 + (c.toNat - 48)) 0)
  else none

/-- Models month/day extraction by `new Date(s)` + `getMonth()+1` /
`getDate()` (lines 159-161) for the ISO `YYYY-MM-DD` strings the Apex
controller supplies (parsed as UTC midnight by the JS engine); any string
not of that shape yields an invalid date (`none`), whose month/day render
as "NaN". -/
def parseIsoMonthDay (s : String) : Option (Nat × Nat) :=
  match splitOnDash s.toList with
  | [y, m, d] =>
      match digitGroupToNat y, digitGroupToNat m, digitGroupToNat d with
      | some _, some mo, some da =>
          if y.length = 4 && m.length = 2 && d.length = 2 &&
             1 ≤ mo && mo ≤ 12 && 1 ≤ da && da ≤ 31 then
            some (mo, da)
          else none
      | _, _, _ => none
  | _ => none

/-- `.toString().padStart(2, '0')` (lines 160-161). -/
def padTwo (n : Nat) : String :=
  let s := toString n
  if s.length < 2 then "0" ++ s else s

/-- The `birthDateString` template literal of line 162:
`${birthYear}-${birthMonth}-${birthDay}`.  For an unparseable
`dateOfBirth` the JS month/day are `NaN` and stringify to "NaN". -/
def birthDateString (d : IdDetails) : String :=
  let md :=
    match parseIsoMonthDay (d.dateOfBirth.getD "") with
    | some p => (padTwo p.1, padTwo p.2)
    | none => ("NaN", "NaN")
  jsNatToString d.birthYear ++ "-" ++ md.1 ++ "-" ++ md.2

/-- The value `checkHolidaysOnBirthDate()` (lines 152-167) stores into
`holidaysOnBirthDate`, as a pure function of its two inputs: `[]` when
`dateOfBirth` is falsy or the `holidays` field is absent (the method first
assigns `[]` and the guard of line 155 then returns early), otherwise the
filter of line 164. -/
def crossReference (d : IdDetails) (r : HolidayResponse) : List Holiday :=
  if !jsTruthyStr d.dateOfBirth || r.holidays.isNone then []
  else (r.holidays.getD []).filter (fun h => h.holidayDate = birthDateString d)

/-- `checkHolidaysOnBirthDate()` (lines 152-167) as a state transformer:
it recomputes `holidaysOnBirthDate` from the current `idDetails` and
`holidayResponse`. -/
def checkHolidaysOnBirthDate (s : CompState) : CompState :=
  { s with holidaysOnBirthDate := crossReference s.idDetails s.holidayResponse }

/-!
## Search orchestration
-/

/-- `handleRetryHolidays()` (lines 172-187), run to completion.
`getHolidaysForYear` is the secondary remote oracle, applied to
`idDetails.birthYear` (the guard of line 173 ensures it is truthy, so the
`getD 0` default is never the value sent).  On resolution the response is
committed and the cross-reference recomputed (lines 177-178), with a
success toast only when the response itself reports success (lines
180-182); on rejection the catch block only logs and emits a failure
toast (lines 183-186). -/
def handleRetryHolidays (s : CompState)
    (getHolidaysForYear : Nat → Except Unit HolidayResponse) :
    CompState × List Toast :=
  if jsTruthyNat s.idDetails.birthYear = false then (s, [])
  else
    match getHolidaysForYear (s.idDetails.birthYear.getD 0) with
    | Except.ok resp =>
        let s1 := checkHolidaysOnBirthDate { s with holidayResponse := resp }
        if resp.success then
          (s1, [⟨"Success!", "Holiday information retrieved", "success"⟩])
        else (s1, [])
    | Except.error _ =>
        (s, [⟨"Error", "Failed to retrieve holidays", "error"⟩])

/-- The synchronous part of `processSuccessfulSearch(result)` (lines
123-147): commits the result payload (lines 124-127) and sets
`hasResults` (line 134).  The call to `handleRetryHolidays()` at line 131
is not awaited: it runs its guard synchronously and suspends at its
`await`, so its completion (modelled separately) lands after `hasResults`
is set and after the caller's `finally` clause.  The `setTimeout` of
lines 144-146 only scrolls the view. -/
def processSuccessfulSearchSync (s : CompState) (result : SearchResult) :
    CompState :=
  { s with idDetails := result.idDetails.getD IdDetails.emptyObj,
           holidayResponse := result.holidayResponse.getD HolidayResponse.emptyObj,
           searchCount := result.searchCount.getD 0,
           formattedIdNumber := jsOrStr result.formattedIdNumber "",
           hasResults := true }

/-- The state mutations of lines 96-99 of `handleSearch()`: mark the
search in flight and clear the prior outcome flags and message. -/
def searchStart (s : CompState) : CompState :=
  { s with isSearching := true, hasError := false,
           hasResults := false, errorMessage := "" }

/-- The synchronous prefix of `handleSearch()` up to the `await` of line
102: `none` when the guard of lines 92-94 returns early (invalid input or
a search already in flight), otherwise the state after lines 96-99. -/
def handleSearchPre (s : CompState) : Option CompState :=
  if !s.isValidId || s.isSearching then none
  else some (searchStart s)

/-- The remainder of `handleSearch()` once the `await` of line 102 has
settled with `outcome`, run to quiescence (lines 104-117 plus the
settlement of the holiday retrieval spawned at line 131).  Event-loop
ordering on the valid-success path: the `finally` of line 116 clears
`isSearching` before the holiday retrieval settles; since
`handleRetryHolidays` never touches `isSearching`, the final state is
obtained by applying it after the `finally`. -/
def handleSearchResolve (s1 : CompState) (outcome : Except Unit SearchResult)
    (getHolidaysForYear : Nat → Except Unit HolidayResponse) :
    CompState × List Toast :=
  match outcome with
  | Except.ok result =>
      if result.isValid then
        let s2 := processSuccessfulSearchSync s1 result
        let s3 := { s2 with isSearching := false }
        handleRetryHolidays s3 getHolidaysForYear
      else
        ({ s1 with hasError := true,
                   errorMessage := jsOrStr result.errorMessage "Invalid SA ID Number",
                   isSearching := false }, [])
  | Except.error _ =>
      ({ s1 with hasError := true,
                 errorMessage := "An unexpected error occurred. Please try again.",
                 isSearching := false },
       [⟨"Error", "Failed to process your request", "error"⟩])

/-- `handleSearch()` (lines 91-118) run to completion, including the
settlement of the dependent holiday retrieval it spawns.
`validateAndSearch` is the remote search oracle (applied to the current
`idNumber`); `getHolidaysForYear` is the oracle the spawned
`handleRetryHolidays` uses.  Returns the final state, the toasts emitted,
and the number of `validateAndSearch` calls made (0 when the guard
rejects, 1 otherwise). -/
def handleSearch (s : CompState)
    (validateAndSearch : String → Except Unit SearchResult)
    (getHolidaysForYear : Nat → Except Unit HolidayResponse) :
    CompState × List Toast × Nat :=
  match handleSearchPre s with
  | none => (s, [], 0)
  | some s1 =>
      let r := handleSearchResolve s1 (validateAndSearch s1.idNumber)
                 getHolidaysForYear
      (r.1, r.2, 1)

/-- The number of remote `validateAndSearch` calls a single
`handleSearch()` invocation makes from state `s`: 1 when the guard of
line 92 passes, 0 otherwise. -/
def searchCallsOf (s : CompState) : Nat :=
  if (handleSearchPre s).isSome then 1 else 0

/-- Two interleaved invocations of `handleSearch()`: the second one's
guard runs while the first (if it passed its own guard) is suspended at
the `await` of line 102, i.e. against the state left by
`handleSearchPre`.  Returns the total number of remote search calls. -/
def doubleSearchCalls (s : CompState) : Nat :=
  match handleSearchPre s with
  | none => searchCallsOf s
  | some s1 => 1 + searchCallsOf s1

/-!
## Error boundary, view projections, reset, public API
-/

/-- `errorCallback(error, stack)` (lines 324-338): forces the error flag,
clears the in-flight flags, emits a toast.  Note that it does not touch
`hasResults`. -/
def errorCallback (s : CompState) : CompState × List Toast :=
  ({ s with hasError := true,
            errorMessage := "A component error occurred. Please refresh the page.",
            isSearching := false, isValidating := false },
   [⟨"Component Error", "An unexpected error occurred. Please refresh the page.",
     "error"⟩])

/-- The `formattedDateOfBirth` getter (lines 254-268).  `fmt` models the
`new Date(...)` + `toLocaleDateString('en-ZA', ...)` expression of the
try block: `some out` is a normal return, `none` models the expression
throwing, handled by the catch block of lines 265-267 which falls back to
the server-supplied `formattedDateOfBirth` (or `''`). -/
def formattedDateOfBirth (d : IdDetails) (fmt : String → Option String) :
    String :=
  if !jsTruthyStr d.dateOfBirth then ""
  else
    match fmt (d.dateOfBirth.getD "") with
    | some out => out
    | none => jsOrStr d.formattedDateOfBirth ""

/-- `resetComponent()` (lines 357-376): restores every tracked field to
its initializer value and cancels any pending debounce timer
(`clearTimeout`, lines 373-375, a no-op when no timer is pending). -/
def resetComponent (s : CompState) : CompState :=
  { s with idNumber := "", isValidId := false, isValidating := false,
           isSearching := false, hasResults := false, hasError := false,
           errorMessage := "", validationMessage := "", searchResults := [],
           idDetails := IdDetails.emptyObj,
           holidayResponse := HolidayResponse.emptyObj,
           searchCount := 0, formattedIdNumber := "",
           holidaysOnBirthDate := [], validationTimeout := false }

/-- The public `@api reset()` (lines 402-405): delegates to
`resetComponent()`. -/
def reset (s : CompState) : CompState :=
  resetComponent s

/-- The public `@api searchWithId(idNumber)` (lines 381-389): sets the
identifier, awaits `performRealtimeValidation()`, and, only if the input
is now valid, awaits `handleSearch()`.  Unlike `handleInputChange`, it
performs no clearing of error/validation state and does not touch the
debounce timer.  Returns the final state, toasts, and the number of
remote search calls. -/
def searchWithId (s : CompState) (idNumber : String)
    (validateIdFormat : String → Except Unit Bool)
    (validateAndSearch : String → Except Unit SearchResult)
    (getHolidaysForYear : Nat → Except Unit HolidayResponse) :
    CompState × List Toast × Nat :=
  let s1 := { s with idNumber := idNumber }
  let s2 := performRealtimeValidation s1 validateIdFormat
  if s2.isValidId then handleSearch s2 validateAndSearch getHolidaysForYear
  else (s2, [], 0)

/-!
## Derived predicates and concrete scenario states

The scenario states replay the interaction of spec section 8: typing the
structurally valid identifier "8001014800086", the debounced format check
resolving `true`, and a search whose result carries an identity record
born 1980-01-01 together with a calendar response listing a holiday on
that date.
-/

/-- Mutual exclusion of the terminal outcome flags: not both `hasResults`
and `hasError`. -/
def flagsExclusive (s : CompState) : Bool :=
  !(s.hasResults && s.hasError)

/-- An identity record as decoded by the server for "8001014800086". -/
def goodIdDetails : IdDetails :=
  { birthYear := some 1980, dateOfBirth := some "1980-01-01",
    gender := some "Male", isSACitizen := true,
    formattedDateOfBirth := some "Tuesday, 1 January 1980" }

/-- A calendar event falling on the record's birth date. -/
def newYearHoliday : Holiday := ⟨"1980-01-01", "New Years Day"⟩

/-- A successful calendar response containing `newYearHoliday`. -/
def goodHolidayResponse : HolidayResponse := ⟨true, some [newYearHoliday]⟩

/-- A resolved `validateAndSearch` payload for the scenario. -/
def goodSearchResult : SearchResult :=
  { isValid := true, errorMessage := none, idDetails := some goodIdDetails,
    holidayResponse := some goodHolidayResponse, searchCount := some 1,
    formattedIdNumber := some "800101 4800 086" }

/-- State after typing "8001014800086" into the input (debounce timer
pending). -/
def typedState : CompState :=
  handleInputChange CompState.initial "8001014800086"

/-- State after the pending debounce callback fires and the remote format
check resolves `true`. -/
def validatedState : CompState :=
  fireValidationTimer typedState (fun _ => Except.ok true)

/-- State after a fully successful search from `validatedState`: the
primary search and the dependent holiday retrieval both succeed. -/
def resultsState : CompState :=
  (handleSearch validatedState (fun _ => Except.ok goodSearchResult)
    (fun _ => Except.ok goodHolidayResponse)).1

/-- State after a search from `validatedState` whose primary call
succeeds but whose dependent holiday retrieval rejects. -/
def staleState : CompState :=
  (handleSearch validatedState (fun _ => Except.ok goodSearchResult)
    (fun _ => Except.error ())).1

/-!
## Helper lemmas
-/

/-- `handleRetryHolidays` only ever writes `holidayResponse` and
`holidaysOnBirthDate`: every other field is left unchanged. -/
lemma handleRetryHolidays_frame (s : CompState)
    (gh : Nat → Except Unit HolidayResponse) :
    (handleRetryHolidays s gh).1.idNumber = s.idNumber ∧
    (handleRetryHolidays s gh).1.isValidId = s.isValidId ∧
    (handleRetryHolidays s gh).1.isValidating = s.isValidating ∧
    (handleRetryHolidays s gh).1.isSearching = s.isSearching ∧
    (handleRetryHolidays s gh).1.hasResults = s.hasResults ∧
    (handleRetryHolidays s gh).1.hasError = s.hasError ∧
    (handleRetryHolidays s gh).1.errorMessage = s.errorMessage ∧
    (handleRetryHolidays s gh).1.validationMessage = s.validationMessage ∧
    (handleRetryHolidays s gh).1.validationTimeout = s.validationTimeout := by
  unfold handleRetryHolidays checkHolidaysOnBirthDate
  split
  · exact ⟨rfl, rfl, rfl, rfl, rfl, rfl, rfl, rfl, rfl⟩
  · split
    · split
      · exact ⟨rfl, rfl, rfl, rfl, rfl, rfl, rfl, rfl, rfl⟩
      · exact ⟨rfl, rfl, rfl, rfl, rfl, rfl, rfl, rfl, rfl⟩
    · exact ⟨rfl, rfl, rfl, rfl, rfl, rfl, rfl, rfl, rfl⟩

/-- When the guard of lines 92-94 passes, `handleSearch` makes exactly
one remote call and resolves it from the state left by lines 96-99. -/
lemma handleSearch_runs (s : CompState)
    (vas : String → Except Unit SearchResult)
    (gh : Nat → Except Unit HolidayResponse)
    (hvalid : s.isValidId = true) (hflight : s.isSearching = false) :
    handleSearch s vas gh =
      ((handleSearchResolve (searchStart s) (vas s.idNumber) gh).1,
       (handleSearchResolve (searchStart s) (vas s.idNumber) gh).2, 1) := by
  unfold handleSearch handleSearchPre
  simp [hvalid, hflight, searchStart]

/-- When the guard of lines 92-94 rejects, `handleSearch` is a no-op and
makes no remote call. -/
lemma handleSearch_guarded (s : CompState)
    (vas : String → Except Unit SearchResult)
    (gh : Nat → Except Unit HolidayResponse)
    (h : s.isValidId = false ∨ s.isSearching = true) :
    handleSearch s vas gh = (s, [], 0) := by
  unfold handleSearch handleSearchPre
  rcases h with h | h <;> simp [h]

/-- The negation of the guard condition as a disjunction on the two
flags. -/
lemma guard_disj_of_not_and {s : CompState}
    (hg : ¬(s.isValidId = true ∧ s.isSearching = false)) :
    s.isValidId = false ∨ s.isSearching = true := by
  rcases Bool.eq_false_or_eq_true s.isValidId with h | h
  · rcases Bool.eq_false_or_eq_true s.isSearching with h' | h'
    · exact Or.inr h'
    · exact absurd ⟨h, h'⟩ hg
  · exact Or.inl h

/-- `handleSearch` never writes the input-validation fields or the
debounce timer. -/
lemma handleSearch_frame (s : CompState)
    (vas : String → Except Unit SearchResult)
    (gh : Nat → Except Unit HolidayResponse) :
    (handleSearch s vas gh).1.idNumber = s.idNumber ∧
    (handleSearch s vas gh).1.isValidId = s.isValidId ∧
    (handleSearch s vas gh).1.isValidating = s.isValidating ∧
    (handleSearch s vas gh).1.validationMessage = s.validationMessage ∧
    (handleSearch s vas gh).1.validationTimeout = s.validationTimeout := by
  by_cases hg : s.isValidId = true ∧ s.isSearching = false
  · rw [handleSearch_runs s vas gh hg.1 hg.2]
    cases hv : vas s.idNumber with
    | ok result =>
        unfold handleSearchResolve
        by_cases hval : result.isValid = true
        · simp only [hval, if_true]
          have hfr := handleRetryHolidays_frame
            { processSuccessfulSearchSync (searchStart s) result with
              isSearching := false } gh
          exact ⟨hfr.1, hfr.2.1, hfr.2.2.1, hfr.2.2.2.2.2.2.2.1,
            hfr.2.2.2.2.2.2.2.2⟩
        · simp only [hval, if_false]
          exact ⟨rfl, rfl, rfl, rfl, rfl⟩
    | error e =>
        unfold handleSearchResolve
        exact ⟨rfl, rfl, rfl, rfl, rfl⟩
  · rw [handleSearch_guarded s vas gh (guard_disj_of_not_and hg)]
    exact ⟨rfl, rfl, rfl, rfl, rfl⟩

/-- `performRealtimeValidation` never writes the identifier, the error
state or the debounce timer. -/
lemma performRealtimeValidation_frame (s : CompState)
    (f : String → Except Unit Bool) :
    (performRealtimeValidation s f).idNumber = s.idNumber ∧
    (performRealtimeValidation s f).hasError = s.hasError ∧
    (performRealtimeValidation s f).errorMessage = s.errorMessage ∧
    (performRealtimeValidation s f).validationTimeout = s.validationTimeout := by
  unfold performRealtimeValidation
  cases f s.idNumber <;> exact ⟨rfl, rfl, rfl, rfl⟩

/-- `performRealtimeValidation` sets `isValidId` from the oracle's
answer, with `false` on rejection. -/
lemma performRealtimeValidation_isValidId_eq (s : CompState)
    (f : String → Except Unit Bool) :
    (performRealtimeValidation s f).isValidId =
      (match f s.idNumber with
       | Except.ok b => b
       | Except.error _ => false) := by
  unfold performRealtimeValidation
  cases f s.idNumber <;> rfl

/-- A pending debounce callback, when it fires, validates the state's
current `idNumber`. -/
lemma fireValidationTimer_isValidId_eq (r : CompState)
    (g : String → Except Unit Bool) (ht : r.validationTimeout = true) :
    (fireValidationTimer r g).isValidId =
      (match g r.idNumber with
       | Except.ok b => b
       | Except.error _ => false) := by
  unfold fireValidationTimer
  rw [if_pos ht]
  unfold performRealtimeValidation
  cases hgr : g r.idNumber with
  | ok b => simp [hgr]
  | error e => simp [hgr]

/-!
## Claim theorems
-/

/-- Claim C1, counterexample: from the reachable state `resultsState`
(obtained by input, validation and a successful search, with
`hasResults = true` and `hasError = false`), the top-level error boundary
`errorCallback` leaves `hasResults = true` while setting
`hasError = true`, so both flags are true afterwards — the claimed
invariant is not preserved by the error boundary. -/
theorem errorCallback_breaks_flag_exclusivity :
    resultsState.hasResults = true ∧ resultsState.hasError = false ∧
    (errorCallback resultsState).1.hasResults = true ∧
    (errorCallback resultsState).1.hasError = true := by
  refine ⟨?_, ?_, ?_, ?_⟩ <;> rfl

/-- Claim C1, amended: both flags are false initially, and input
handling, realtime validation (also via the debounce timer), search,
secondary retrieval and reset each preserve the mutual exclusion of
`hasResults`/`hasError`; the error boundary `errorCallback`, however,
sets `hasError` while leaving `hasResults` unchanged, so it alone can
break the exclusion (exactly when `hasResults` was already true). -/
theorem flag_exclusivity_outside_errorCallback (s : CompState)
    (hs : flagsExclusive s = true) :
    flagsExclusive CompState.initial = true ∧
    (∀ v, flagsExclusive (handleInputChange s v) = true) ∧
    (∀ f, flagsExclusive (performRealtimeValidation s f) = true) ∧
    (∀ f, flagsExclusive (fireValidationTimer s f) = true) ∧
    (∀ vas gh, flagsExclusive (handleSearch s vas gh).1 = true) ∧
    (∀ gh, flagsExclusive (handleRetryHolidays s gh).1 = true) ∧
    flagsExclusive (resetComponent s) = true ∧
    (errorCallback s).1.hasError = true ∧
    (errorCallback s).1.hasResults = s.hasResults := by
  refine ⟨rfl, ?_, ?_, ?_, ?_, ?_, rfl, rfl, rfl⟩
  · intro v
    unfold handleInputChange flagsExclusive
    split
    · simp
    · split <;> simp
  · intro f
    unfold performRealtimeValidation flagsExclusive
    unfold flagsExclusive at hs
    cases f s.idNumber <;> simpa using hs
  · intro f
    unfold fireValidationTimer
    split
    · unfold performRealtimeValidation flagsExclusive
      unfold flagsExclusive at hs
      cases f s.idNumber <;> simpa using hs
    · exact hs
  · intro vas gh
    by_cases hg : s.isValidId = true ∧ s.isSearching = false
    · rw [handleSearch_runs s vas gh hg.1 hg.2]
      cases hv : vas s.idNumber with
      | ok result =>
          unfold handleSearchResolve
          by_cases hval : result.isValid = true
          · simp only [hval, if_true]
            have hfr := handleRetryHolidays_frame
              { processSuccessfulSearchSync (searchStart s) result with
                isSearching := false } gh
            unfold flagsExclusive
            rw [hfr.2.2.2.2.1, hfr.2.2.2.2.2.1]
            rfl
          · simp only [hval, if_false]
            rfl
      | error e =>
          unfold handleSearchResolve
          rfl
    · rw [handleSearch_guarded s vas gh (guard_disj_of_not_and hg)]
      exact hs
  · intro gh
    have hfr := handleRetryHolidays_frame s gh
    unfold flagsExclusive
    rw [hfr.2.2.2.2.1, hfr.2.2.2.2.2.1]
    exact hs

/-- Witness for claim C1's amended theorem, applied at the initial state:
input handling preserves flag exclusion. -/
theorem flag_exclusivity_outside_errorCallback_witness :
    flagsExclusive (handleInputChange CompState.initial "80") = true :=
  (flag_exclusivity_outside_errorCallback CompState.initial (by decide)).2.1 "80"

/-- Claim C2: when `handleSearch` actually runs (valid input, no search
in flight), `isSearching` is false after every completion path — success
with `isValid = true`, success with `isValid = false`, and rejection —
and on rejection `hasError` is set, `errorMessage` is the generic
fallback, and exactly the single error toast of line 114 is emitted. -/
theorem handleSearch_clears_isSearching_and_error_path (s : CompState)
    (vas : String → Except Unit SearchResult)
    (gh : Nat → Except Unit HolidayResponse)
    (hvalid : s.isValidId = true) (hflight : s.isSearching = false) :
    (handleSearch s vas gh).1.isSearching = false ∧
    (vas s.idNumber = Except.error () →
      (handleSearch s vas gh).1.hasError = true ∧
      (handleSearch s vas gh).1.errorMessage =
        "An unexpected error occurred. Please try again." ∧
      (handleSearch s vas gh).2.1 =
        [⟨"Error", "Failed to process your request", "error"⟩]) := by
  rw [handleSearch_runs s vas gh hvalid hflight]
  cases hv : vas s.idNumber with
  | ok result =>
      refine ⟨?_, ?_⟩
      · unfold handleSearchResolve
        by_cases hval : result.isValid = true
        · simp only [hval, if_true]
          have h1 := (handleRetryHolidays_frame
            { processSuccessfulSearchSync (searchStart s) result with
              isSearching := false } gh).2.2.2.1
          simpa using h1
        · simp [hval]
      · intro hcontra
        simp at hcontra
  | error e =>
      unfold handleSearchResolve
      exact ⟨rfl, fun _ => ⟨rfl, rfl, rfl⟩⟩

/-- Witness for claim C2's theorem at the scenario state whose remote
search rejects. -/
theorem handleSearch_clears_isSearching_and_error_path_witness :
    (handleSearch validatedState (fun _ => Except.error ())
      (fun _ => Except.error ())).1.isSearching = false ∧
    (handleSearch validatedState (fun _ => Except.error ())
      (fun _ => Except.error ())).1.hasError = true := by
  have h := handleSearch_clears_isSearching_and_error_path validatedState
    (fun _ => Except.error ()) (fun _ => Except.error ()) (by decide) (by decide)
  exact ⟨h.1, (h.2 rfl).1⟩

/-- Claim C3: `handleSearch` is a guarded no-op — state, toasts and
remote-call count all unchanged — unless `isValidId` is true and no
search is in flight; its remote-call count always equals
`searchCallsOf`; and two invocations interleaved at the `await` (the
second starting while the first is in flight) make exactly one remote
`validateAndSearch` call in total. -/
theorem handleSearch_guard_single_remote_call (s : CompState)
    (vas : String → Except Unit SearchResult)
    (gh : Nat → Except Unit HolidayResponse) :
    ((s.isValidId = false ∨ s.isSearching = true) →
       handleSearch s vas gh = (s, [], 0)) ∧
    (handleSearch s vas gh).2.2 = searchCallsOf s ∧
    (s.isValidId = true → s.isSearching = false → doubleSearchCalls s = 1) := by
  refine ⟨handleSearch_guarded s vas gh, ?_, ?_⟩
  · unfold handleSearch searchCallsOf
    cases h : handleSearchPre s <;> simp
  · intro hvalid hflight
    unfold doubleSearchCalls
    have hpre : handleSearchPre s = some (searchStart s) := by
      unfold handleSearchPre
      simp [hvalid, hflight]
    rw [hpre]
    have hpre2 : handleSearchPre (searchStart s) = none := by
      unfold handleSearchPre searchStart
      simp
    simp [searchCallsOf, hpre2]

/-- Witness for claim C3's theorem: the guarded no-op at the initial
state, and the single remote call from the validated scenario state. -/
theorem handleSearch_guard_single_remote_call_witness :
    handleSearch CompState.initial (fun _ => Except.error ())
      (fun _ => Except.error ()) = (CompState.initial, [], 0) ∧
    doubleSearchCalls validatedState = 1 := by
  refine ⟨?_, ?_⟩
  · exact (handleSearch_guard_single_remote_call CompState.initial
      (fun _ => Except.error ()) (fun _ => Except.error ())).1 (Or.inl rfl)
  · exact (handleSearch_guard_single_remote_call validatedState
      (fun _ => Except.error ()) (fun _ => Except.error ())).2.2 (by decide) (by decide)

/-- Claim C4, counterexample: the ten-character input "0123456789" (length
in [10, 12]) leaves `validationMessage` empty — no insufficient-length
message is shown — while a debounced format check is indeed scheduled. -/
theorem midLengthInput_shows_no_message :
    (handleInputChange CompState.initial "0123456789").idNumber.length = 10 ∧
    (handleInputChange CompState.initial "0123456789").validationMessage = "" ∧
    (handleInputChange CompState.initial "0123456789").validationTimeout = true := by
  refine ⟨?_, ?_, ?_⟩ <;> rfl

/-- Claim C4, amended: for input lengths in [10, 12] the input handler
clears the validation message (no insufficient-length message is shown)
and schedules a debounced format check with `isValidating` set, per the
fixed threshold length ≥ 10; the insufficient-length message is shown
only for lengths in [1, 9], where no check is scheduled. -/
theorem handleInputChange_length_bands (s : CompState) (v w : String)
    (h10 : 10 ≤ v.length) (h12 : v.length ≤ 12)
    (hw1 : 1 ≤ w.length) (hw9 : w.length ≤ 9) :
    (handleInputChange s v).validationMessage = "" ∧
    (handleInputChange s v).validationTimeout = true ∧
    (handleInputChange s v).isValidating = true ∧
    (handleInputChange s w).validationMessage = "ID number must be 13 digits long" ∧
    (handleInputChange s w).validationTimeout = false ∧
    (handleInputChange s w).isValidating = false := by
  have hne : (v != "") = true := by
    rcases eq_or_ne v "" with rfl | h
    · simp at h10
    · simp [h]
  have hwlt : ¬(10 ≤ w.length) := by omega
  have hw0 : 0 < w.length := hw1
  have hw13 : w.length < 13 := by omega
  unfold handleInputChange
  simp [hne, h10, hwlt, hw0, hw13]

/-- Witness for claim C4's amended theorem at inputs of length 10 and 9. -/
theorem handleInputChange_length_bands_witness :
    (handleInputChange CompState.initial "0123456789").validationTimeout = true ∧
    (handleInputChange CompState.initial "012345678").validationMessage =
      "ID number must be 13 digits long" := by
  have h := handleInputChange_length_bands CompState.initial "0123456789" "012345678"
    (by decide) (by decide) (by decide) (by decide)
  exact ⟨h.2.1, h.2.2.2.1⟩

/-- Claim C5, counterexample: in `staleState` (successful primary search,
rejected holiday retrieval) the stored `holidaysOnBirthDate` is `[]`
while the cross-reference recomputed from the current `idDetails` and
`holidayResponse` is `[newYearHoliday]` — the stored value is stale
relative to its inputs, refuting "at all times a pure function". -/
theorem holidaysOnBirthDate_goes_stale :
    staleState.holidaysOnBirthDate = [] ∧
    crossReference staleState.idDetails staleState.holidayResponse =
      [newYearHoliday] ∧
    staleState.holidaysOnBirthDate ≠
      crossReference staleState.idDetails staleState.holidayResponse := by
  have h1 : staleState.holidaysOnBirthDate = [] := rfl
  have h2 : crossReference staleState.idDetails staleState.holidayResponse =
      [newYearHoliday] := rfl
  refine ⟨h1, h2, ?_⟩
  rw [h1, h2]
  simp

/-- Claim C5, amended: whenever the holiday retrieval completes
successfully, the stored `holidaysOnBirthDate` equals the
cross-reference recomputed from the then-current `idDetails` and
`holidayResponse`; and `crossReference` itself is exactly the subset of
the calendar events whose date equals the birth-date string derived from
the identity record.  (When the retrieval rejects or is skipped for a
falsy `birthYear`, the stored value is left unchanged and may go stale,
as the counterexample shows.) -/
theorem crossReference_fresh_after_retrieval (s : CompState)
    (gh : Nat → Except Unit HolidayResponse)
    (hby : jsTruthyNat s.idDetails.birthYear = true)
    (resp : HolidayResponse)
    (hok : gh (s.idDetails.birthYear.getD 0) = Except.ok resp) :
    (handleRetryHolidays s gh).1.holidaysOnBirthDate =
      crossReference (handleRetryHolidays s gh).1.idDetails
        (handleRetryHolidays s gh).1.holidayResponse ∧
    ∀ (d : IdDetails) (r : HolidayResponse) (h : Holiday),
      h ∈ crossReference d r →
        h ∈ r.holidays.getD [] ∧ h.holidayDate = birthDateString d := by
  constructor
  · unfold handleRetryHolidays
    rw [if_neg (by simp [hby]), hok]
    unfold checkHolidaysOnBirthDate
    split
    · split <;> simp
    · rename_i heq
      simp at heq
  · intro d r h hmem
    unfold crossReference at hmem
    split at hmem
    · simp at hmem
    · rw [List.mem_filter] at hmem
      exact ⟨hmem.1, by simpa using hmem.2⟩

/-- Witness for claim C5's amended theorem: a successful retrieval from
`staleState` re-establishes the cross-reference equation. -/
theorem crossReference_fresh_after_retrieval_witness :
    (handleRetryHolidays staleState
      (fun _ => Except.ok goodHolidayResponse)).1.holidaysOnBirthDate =
      crossReference
        (handleRetryHolidays staleState
          (fun _ => Except.ok goodHolidayResponse)).1.idDetails
        (handleRetryHolidays staleState
          (fun _ => Except.ok goodHolidayResponse)).1.holidayResponse :=
  (crossReference_fresh_after_retrieval staleState
    (fun _ => Except.ok goodHolidayResponse) (by decide) goodHolidayResponse rfl).1

/-- Claim C6: when the primary search succeeds (`isValid = true`) but the
dependent `getHolidaysForYear` rejects, the committed primary state is
untouched: `hasResults` stays true, `hasError` stays false,
`errorMessage` stays empty, exactly the retry-failure toast is emitted,
`holidaysOnBirthDate` keeps its prior value, and the committed
`idDetails`/`holidayResponse` are the primary result's payload. -/
theorem retryFailure_preserves_primary_success (s : CompState)
    (vas : String → Except Unit SearchResult)
    (gh : Nat → Except Unit HolidayResponse) (result : SearchResult)
    (hvalid : s.isValidId = true) (hflight : s.isSearching = false)
    (hres : vas s.idNumber = Except.ok result) (hok : result.isValid = true)
    (hby : jsTruthyNat (result.idDetails.getD IdDetails.emptyObj).birthYear = true)
    (hfail : gh ((result.idDetails.getD IdDetails.emptyObj).birthYear.getD 0) =
      Except.error ()) :
    (handleSearch s vas gh).1.hasResults = true ∧
    (handleSearch s vas gh).1.hasError = false ∧
    (handleSearch s vas gh).1.errorMessage = "" ∧
    (handleSearch s vas gh).2.1 =
      [⟨"Error", "Failed to retrieve holidays", "error"⟩] ∧
    (handleSearch s vas gh).1.holidaysOnBirthDate = s.holidaysOnBirthDate ∧
    (handleSearch s vas gh).1.idDetails = result.idDetails.getD IdDetails.emptyObj ∧
    (handleSearch s vas gh).1.holidayResponse =
      result.holidayResponse.getD HolidayResponse.emptyObj := by
  rw [handleSearch_runs s vas gh hvalid hflight, hres]
  unfold handleSearchResolve
  simp only [hok, if_true]
  unfold handleRetryHolidays
  simp only [processSuccessfulSearchSync, hby, hfail]
  split
  · simp_all
  · exact ⟨rfl, rfl, rfl, rfl, rfl, rfl, rfl⟩

/-- Witness for claim C6's theorem: the scenario search whose holiday
retrieval rejects keeps the primary success committed. -/
theorem retryFailure_preserves_primary_success_witness :
    (handleSearch validatedState (fun _ => Except.ok goodSearchResult)
      (fun _ => Except.error ())).1.hasResults = true ∧
    (handleSearch validatedState (fun _ => Except.ok goodSearchResult)
      (fun _ => Except.error ())).1.hasError = false := by
  have h := retryFailure_preserves_primary_success validatedState
    (fun _ => Except.ok goodSearchResult) (fun _ => Except.error ())
    goodSearchResult (by decide) (by decide) rfl rfl (by decide) rfl
  exact ⟨h.1, h.2.1⟩

/-- Claim C7: `performRealtimeValidation` always clears `isValidating`,
sets `isValidId` to the oracle's boolean on success and to `false` on
rejection, sets the message reflecting the outcome (valid / invalid
format / generic validation error), and leaves the identifier unchanged;
it is a total function, so the rejection never propagates. -/
theorem performRealtimeValidation_contract (s : CompState)
    (f : String → Except Unit Bool) :
    (performRealtimeValidation s f).isValidating = false ∧
    (performRealtimeValidation s f).isValidId =
      (match f s.idNumber with
       | Except.ok b => b
       | Except.error _ => false) ∧
    (performRealtimeValidation s f).validationMessage =
      (match f s.idNumber with
       | Except.ok true => "Valid SA ID Number ✓"
       | Except.ok false => "Invalid SA ID Number format"
       | Except.error _ => "Validation error occurred") ∧
    (performRealtimeValidation s f).idNumber = s.idNumber := by
  unfold performRealtimeValidation
  cases hf : f s.idNumber with
  | ok b =>
      cases b <;> exact ⟨rfl, rfl, rfl, rfl⟩
  | error e => exact ⟨rfl, rfl, rfl, rfl⟩

/-- Claim C8: the formatted date-of-birth getter is total (never throws):
it returns the empty string when `dateOfBirth` is falsy, the local
formatter's output when that succeeds, and otherwise falls back to the
server-supplied pre-formatted string (or the empty string when that too
is falsy). -/
theorem formattedDateOfBirth_total_fallback (d : IdDetails)
    (fmt : String → Option String) :
    (jsTruthyStr d.dateOfBirth = false → formattedDateOfBirth d fmt = "") ∧
    (∀ out, jsTruthyStr d.dateOfBirth = true →
       fmt (d.dateOfBirth.getD "") = some out →
       formattedDateOfBirth d fmt = out) ∧
    (jsTruthyStr d.dateOfBirth = true →
       fmt (d.dateOfBirth.getD "") = none →
       formattedDateOfBirth d fmt = jsOrStr d.formattedDateOfBirth "") := by
  unfold formattedDateOfBirth
  refine ⟨fun h => ?_, fun out h1 h2 => ?_, fun h1 h2 => ?_⟩
  · simp [h]
  · simp [h1, h2]
  · simp [h1, h2]

/-- Witness for claim C8's theorem covering all three branches at
concrete records and formatters. -/
theorem formattedDateOfBirth_total_fallback_witness :
    formattedDateOfBirth IdDetails.emptyObj (fun _ => some "x") = "" ∧
    formattedDateOfBirth goodIdDetails (fun _ => some "x") = "x" ∧
    formattedDateOfBirth goodIdDetails (fun _ => none) =
      jsOrStr goodIdDetails.formattedDateOfBirth "" := by
  refine ⟨?_, ?_, ?_⟩
  · exact (formattedDateOfBirth_total_fallback IdDetails.emptyObj
      (fun _ => some "x")).1 rfl
  · exact (formattedDateOfBirth_total_fallback goodIdDetails
      (fun _ => some "x")).2.1 "x" rfl rfl
  · exact (formattedDateOfBirth_total_fallback goodIdDetails
      (fun _ => none)).2.2 rfl rfl

/-- Claim C9: `reset()` restores every field to its documented initial
value (empty strings, false flags, empty objects, zero counter, empty
cross-reference list), yields exactly the initial state, and cancels the
pending debounce timer, so a later timer firing is a no-op. -/
theorem reset_restores_documented_initial_state (s : CompState)
    (f : String → Except Unit Bool) :
    (reset s).idNumber = "" ∧ (reset s).isValidId = false ∧
    (reset s).isValidating = false ∧ (reset s).isSearching = false ∧
    (reset s).hasResults = false ∧ (reset s).hasError = false ∧
    (reset s).errorMessage = "" ∧ (reset s).validationMessage = "" ∧
    (reset s).searchResults = [] ∧ (reset s).idDetails = IdDetails.emptyObj ∧
    (reset s).holidayResponse = HolidayResponse.emptyObj ∧
    (reset s).searchCount = 0 ∧ (reset s).formattedIdNumber = "" ∧
    (reset s).holidaysOnBirthDate = [] ∧
    (reset s).validationTimeout = false ∧
    reset s = CompState.initial ∧
    fireValidationTimer (reset s) f = reset s := by
  refine ⟨rfl, rfl, rfl, rfl, rfl, rfl, rfl, rfl, rfl, rfl, rfl, rfl, rfl,
    rfl, rfl, rfl, ?_⟩
  unfold fireValidationTimer
  split
  · rename_i h
    simp [reset, resetComponent] at h
  · rfl

/-- Claim C10: the public `searchWithId` leaves a pending debounce timer
pending on every path, sets the identifier, and — when validation deems
the identifier invalid — leaves the prior `hasError`/`errorMessage`
untouched (no clearing happens, unlike interactive input); the surviving
timer's later firing re-runs validation against the programmatically set
identifier. -/
theorem searchWithId_keeps_prior_error_and_pending_timer (s : CompState)
    (idv : String) (vf : String → Except Unit Bool)
    (vas : String → Except Unit SearchResult)
    (gh : Nat → Except Unit HolidayResponse)
    (g : String → Except Unit Bool)
    (htimer : s.validationTimeout = true) :
    (searchWithId s idv vf vas gh).1.validationTimeout = true ∧
    (searchWithId s idv vf vas gh).1.idNumber = idv ∧
    (vf idv = Except.ok false →
       (searchWithId s idv vf vas gh).1.hasError = s.hasError ∧
       (searchWithId s idv vf vas gh).1.errorMessage = s.errorMessage) ∧
    (fireValidationTimer (searchWithId s idv vf vas gh).1 g).isValidId =
      (match g idv with
       | Except.ok b => b
       | Except.error _ => false) := by
  have hfr := performRealtimeValidation_frame { s with idNumber := idv } vf
  have hvt : (performRealtimeValidation { s with idNumber := idv } vf).validationTimeout = true :=
    hfr.2.2.2.trans htimer
  have hid : (performRealtimeValidation { s with idNumber := idv } vf).idNumber = idv :=
    hfr.1
  unfold searchWithId
  dsimp only
  by_cases hvalid2 :
      (performRealtimeValidation { s with idNumber := idv } vf).isValidId = true
  · rw [if_pos hvalid2]
    have hsf := handleSearch_frame
      (performRealtimeValidation { s with idNumber := idv } vf) vas gh
    have h1 : (handleSearch (performRealtimeValidation { s with idNumber := idv } vf)
        vas gh).1.validationTimeout = true := hsf.2.2.2.2.trans hvt
    have h2 : (handleSearch (performRealtimeValidation { s with idNumber := idv } vf)
        vas gh).1.idNumber = idv := hsf.1.trans hid
    refine ⟨h1, h2, ?_, ?_⟩
    · intro hok
      have hfalse : (performRealtimeValidation { s with idNumber := idv } vf).isValidId
          = false := by
        rw [performRealtimeValidation_isValidId_eq]
        have hscrut : vf ({ s with idNumber := idv } : CompState).idNumber =
            Except.ok false := hok
        rw [hscrut]
      rw [hfalse] at hvalid2
      cases hvalid2
    · rw [fireValidationTimer_isValidId_eq _ g h1, h2]
  · rw [if_neg hvalid2]
    refine ⟨hvt, hid, fun _ => ⟨hfr.2.1, hfr.2.2.1⟩, ?_⟩
    rw [fireValidationTimer_isValidId_eq _ g hvt, hid]

/-- Witness for claim C10's theorem: from the typed state (timer
pending), a programmatic search whose validation answers `false` keeps
the timer pending and the prior `hasError` unchanged. -/
theorem searchWithId_keeps_prior_error_and_pending_timer_witness :
    (searchWithId typedState "9001014800086" (fun _ => Except.ok false)
      (fun _ => Except.error ()) (fun _ => Except.error ())).1.validationTimeout
        = true ∧
    (searchWithId typedState "9001014800086" (fun _ => Except.ok false)
      (fun _ => Except.error ()) (fun _ => Except.error ())).1.hasError =
        typedState.hasError := by
  have h := searchWithId_keeps_prior_error_and_pending_timer typedState
    "9001014800086" (fun _ => Except.ok false) (fun _ => Except.error ())
    (fun _ => Except.error ()) (fun _ => Except.ok true) (by decide)
  exact ⟨h.1, (h.2.2.1 rfl).1⟩

end SaIdHolidayChecker
